import Mathlib

/-!
Verification of the OWL→FHIR conversion orchestrator (`src/bin/convert_owl.py`).

Python strings are modelled as `List Char`; the filesystem and the trace of
external-tool invocations are threaded through an explicit state, and Python
exceptions are modelled with an `Except`-style result.  Each definition below
is a direct translation of the corresponding Python function; file contents of
graph documents are supplied by an oracle (`Env.graphAt`), since they are
produced by the external `robot` engine.
-/

set_option autoImplicit false

namespace ConvertOwl

/-- Python strings, modelled as lists of characters. -/
abbrev Str := List Char

/-- Coerce a Lean string literal to the `Str` model. -/
def str (s : String) : Str := s.data

/-- Python `a.startswith(b)` : is `pat` a leading segment of `s`? -/
def strStartsWith : Str → Str → Bool
  | [], _ => true
  | _ :: _, [] => false
  | p :: ps, c :: cs => p == c && strStartsWith ps cs

/-- Python `pat in s` : does `pat` occur as a contiguous substring of `s`? -/
def strContains (pat : Str) : Str → Bool
  | [] => strStartsWith pat []
  | c :: cs => strStartsWith pat (c :: cs) || strContains pat cs

/-- Python `s.endswith(pat)`. -/
def strEndsWith (pat s : Str) : Bool :=
  strStartsWith pat.reverse s.reverse

/-- Helper for `strReplace`: the fuel bounds the number of characters still to
be scanned, so any fuel of at least `s.length` yields Python's behavior. -/
def strReplaceFuel (pat rep : Str) : Nat → Str → Str
  | _, [] => []
  | 0, s => s
  | Nat.succ n, c :: cs =>
    if strStartsWith pat (c :: cs) && !pat.isEmpty then
      rep ++ strReplaceFuel pat rep n ((c :: cs).drop pat.length)
    else
      c :: strReplaceFuel pat rep n cs

/-- Python `s.replace(pat, rep)` for a non-empty `pat`: replace every
non-overlapping occurrence, scanning left to right.  (All call sites in the
source use non-empty patterns.) -/
def strReplace (pat rep s : Str) : Str := strReplaceFuel pat rep s.length s

/-- Python `s.split(sep)` for a single-character separator: keeps empty
fields, result is always non-empty. -/
def strSplit (sep : Char) : Str → List Str
  | [] => [[]]
  | c :: cs =>
    match strSplit sep cs with
    | [] => [[]]
    | h :: t => if c == sep then [] :: h :: t else (c :: h) :: t

/-- Python `sep.join(parts)`. -/
def strJoin (sep : Str) (parts : List Str) : Str :=
  List.intercalate sep parts

/-- Python `s.lower()` (ASCII, which covers every string in the source). -/
def strLower (s : Str) : Str := s.map Char.toLower

/-- POSIX `os.path.basename`: the part after the last `/`. -/
def basename (p : Str) : Str :=
  (p.reverse.takeWhile (fun c => c ≠ '/')).reverse

/-- POSIX `os.path.dirname`: everything before the last `/`, with trailing
slashes stripped unless the result is all slashes. -/
def dirname (p : Str) : Str :=
  let head := (p.reverse.dropWhile (fun c => c ≠ '/')).reverse
  if head ≠ [] ∧ ¬ head.all (fun c => c == '/') then
    (head.reverse.dropWhile (fun c => c == '/')).reverse
  else head

/-- POSIX `os.path.join a b`: an absolute second component discards the
first. -/
def pathJoin (a b : Str) : Str :=
  if strStartsWith (str "/") b then b
  else if a = [] then b
  else if strEndsWith (str "/") a then a ++ b
  else a ++ str "/" ++ b

/-- Truthiness of an optional string (Python `if x:` where `x` is `None`,
`False` or a string). -/
def truthy : Option Str → Bool
  | none => false
  | some s => !s.isEmpty

/-- `urlparse(s)` yields a non-empty scheme and netloc: the string has a valid
scheme (letter, then letters/digits/`+`/`-`/`.`) before `://` and a non-empty
authority after it. -/
def validScheme : Str → Bool
  | [] => false
  | c :: cs =>
    c.isAlpha && cs.all (fun d => d.isAlpha || d.isDigit || d == '+' || d == '-' || d == '.')

/-- Split at the first occurrence of `pat`, returning the parts before and
after it. -/
def splitFirst (pat : Str) : Str → Option (Str × Str)
  | [] => if pat = [] then some ([], []) else none
  | c :: cs =>
    if strStartsWith pat (c :: cs) then some ([], (c :: cs).drop pat.length)
    else match splitFirst pat cs with
      | some (pre, post) => some (c :: pre, post)
      | none => none

/-- `maybe_url.scheme and maybe_url.netloc` for a string input: a valid scheme
followed by `://` and a non-empty host. -/
def hasSchemeAndNetloc (s : Str) : Bool :=
  match splitFirst (str "://") s with
  | none => false
  | some (pre, post) => validScheme pre && !(post.takeWhile (fun c => c ≠ '/')).isEmpty

end ConvertOwl

namespace ConvertOwl


/-! ## Data model: graph documents (Obographs JSON) -/

/-- A node of an Obographs graph document.  The patch logic in
`owl_to_obograph` reads and writes only the `id` key of a node, so nodes are
modelled by their identifier. -/
structure ONode where
  id : Str
  deriving DecidableEq

/-- An edge of an Obographs graph document (`sub`/`pred`/`obj` keys). -/
structure OEdge where
  sub : Str
  pred : Str
  obj : Str
  deriving DecidableEq

/-- `data['graphs'][0]` of an Obographs JSON document: a node list and an edge
list. -/
structure GraphDoc where
  nodes : List ONode
  edges : List OEdge
  deriving DecidableEq

/-- The ids present in the node list (`node_ids` in the source). -/
def nodeIds (d : GraphDoc) : List Str := d.nodes.map ONode.id

/-- `edge_subs.union(edge_objs)` in the source: every id referenced by an edge
as subject or object.  Python builds a set; we keep a deduplicated list, which
has the same membership. -/
def edgeIds (d : GraphDoc) : List Str :=
  ((d.edges.map OEdge.sub) ++ (d.edges.map OEdge.obj)).dedup

/-- The `missing` list of `owl_to_obograph` (lines 182–189): ids referenced by
edges, absent from the node list, and starting with one of the native URI
stems. -/
def missingNativeIds (native_uri_stems : List Str) (d : GraphDoc) : List Str :=
  ((edgeIds d).filter (fun x => !(nodeIds d).contains x)).filter
    (fun x => native_uri_stems.any (fun y => strStartsWith y x))

/-- The document rewrite of `owl_to_obograph` (lines 191–197): when `missing`
is non-empty, append a minimal placeholder declaration `{'id': node_id}` for
each missing native id and rewrite the document; otherwise leave it alone.
This models the code executed under the `if native_uri_stems:` guard, which is
kept at its call site in `owl_to_obograph`. -/
def patchObograph (native_uri_stems : List Str) (d : GraphDoc) : GraphDoc :=
  let missing := missingNativeIds native_uri_stems d
  if missing ≠ [] then
    { d with nodes := d.nodes ++ missing.map (fun i => { id := i }) }
  else d

/-! ## Effect model

The orchestrator's side effects are: running a subprocess, downloading a file,
deleting a file, the in-process Obographs→FHIR conversion, and rewriting a
graph document.  A run is a function from a state (filesystem + trace of
actions so far) to a Python-style outcome: a result or an uncaught exception,
together with the final state.  Subprocess outputs and produced graph
documents come from an environment oracle, since they are determined by the
external engines. -/

/-- Python exceptions raised by the orchestrator. -/
inductive Err where
  | runtimeError (msg : Str)
  | fileExistsError (msg : Str)
  | fileNotFoundError (path : Str)
  | keyError (key : Str)
  | attributeError
  | typeError
  | indexError
  deriving DecidableEq

/-- One observable side effect. -/
inductive Act where
  | runShell (command : Str) (cwd : Option Str)
  | download (url : Str) (path : Str)
  | removeFile (path : Str)
  | convertInProcess (inpath : Str) (outpath : Str)
  | writeGraph (path : Str) (doc : GraphDoc)
  deriving DecidableEq

/-- What a completed subprocess left behind: its two output streams and the
files it created on disk. -/
structure SubprocResult where
  stderr : Str
  stdout : Str
  creates : List Str

/-- The environment oracle: the behavior of the `n`-th subprocess invocation
(given its command and working directory), and the graph document found at a
path when the patch step reads it. -/
structure Env where
  subproc : Nat → Str → Option Str → SubprocResult
  graphAt : Str → GraphDoc

/-- Mutable world state: the set of existing files, the number of subprocess
calls made, the ordered trace of side effects, and file modification times
(which, notably, nothing in the program ever reads). -/
structure St where
  files : List Str
  nCalls : Nat
  trace : List Act
  mtime : Str → Nat

/-- A computation: state in, Python-style outcome (value or uncaught
exception) and state out.  Side effects performed before an exception was
raised persist, as in Python. -/
def M (α : Type) : Type := St → Except Err α × St

instance : Monad M where
  pure a := fun st => (Except.ok a, st)
  bind x f := fun st =>
    match x st with
    | (Except.ok a, st') => f a st'
    | (Except.error e, st') => (Except.error e, st')

/-- `raise e`. -/
def throwM {α : Type} (e : Err) : M α := fun st => (Except.error e, st)

/-- `try x except e: h e` — the handler sees the state as the failing
computation left it. -/
def tryCatchM {α : Type} (x : M α) (h : Err → M α) : M α := fun st =>
  match x st with
  | (Except.error e, st') => h e st'
  | r => r

/-- `os.path.exists`. -/
def pathExists (p : Str) : M Bool := fun st => (Except.ok (st.files.contains p), st)

/-- Add a file to the filesystem (idempotently). -/
def addFile (files : List Str) (p : Str) : List Str :=
  if files.contains p then files else files ++ [p]

/-- Add several files to the filesystem. -/
def addFiles (files : List Str) (ps : List Str) : List Str :=
  ps.foldl addFile files

/-- The state after deleting a file. -/
def removeSt (st : St) (p : Str) : St :=
  { st with files := st.files.erase p, trace := st.trace ++ [Act.removeFile p] }

/-- `os.remove`: deletes the file, raising `FileNotFoundError` when it does
not exist. -/
def osRemove (p : Str) : M Unit := fun st =>
  if st.files.contains p then (Except.ok (), removeSt st p)
  else (Except.error (Err.fileNotFoundError p), st)

/-! ## `_run_shell_command` (lines 82–98) -/

/-- The one benign stderr signature. -/
def benignWarning : Str :=
  str "Unable to create a system terminal, creating a dumb terminal"

/-- Outcome of classifying a completed subprocess. -/
inductive RunClass where
  | ok
  | runtimeErr (msg : Str)
  | fileExistsErr (msg : Str)
  deriving DecidableEq

/-- The error-classification chain of `_run_shell_command` (lines 90–97),
including the Python operator precedence of line 92:
`stdout and 'error' in stdout or 'ERROR' in stdout` parses as
`(stdout and 'error' in stdout) or ('ERROR' in stdout)`. -/
def classifyRun (stderr stdout : Str) : RunClass :=
  if !stderr.isEmpty && !strContains benignWarning stderr then
    RunClass.runtimeErr stderr
  else if (!stdout.isEmpty && strContains (str "error") stdout)
      || strContains (str "ERROR") stdout then
    RunClass.runtimeErr stdout
  else if !stdout.isEmpty && strContains (str "make: Nothing to be done") stdout then
    RunClass.runtimeErr stdout
  else if !stdout.isEmpty && strContains (str ".db' is up to date") stdout then
    RunClass.fileExistsErr stdout
  else RunClass.ok

/-- The state after a subprocess call completed: the call is counted and
recorded and the files the tool created exist. -/
def stAfterRun (st : St) (command : Str) (cwd : Option Str) (creates : List Str) : St :=
  { st with
    nCalls := st.nCalls + 1,
    trace := st.trace ++ [Act.runShell command cwd],
    files := addFiles st.files creates }

/-- `_run_shell_command`: run the subprocess (recording the call and any files
the tool created), then raise according to `classifyRun`. -/
def run_shell_command (env : Env) (command : Str) (cwd_outdir : Option Str := none) :
    M Unit := fun st =>
  let r := env.subproc st.nCalls command cwd_outdir
  let st' : St := stAfterRun st command cwd_outdir r.creates
  match classifyRun r.stderr r.stdout with
  | RunClass.ok => (Except.ok (), st')
  | RunClass.runtimeErr m => (Except.error (Err.runtimeError m), st')
  | RunClass.fileExistsErr m => (Except.error (Err.fileExistsError m), st')

/-- `download` (lines 118–128): write the file unless it is cached and
re-download was declined.  `download_if_cached` defaults to `True` in the
source, so the only call site (`owl_to_fhir`) always re-downloads. -/
def download (url path : Str) (download_if_cached : Bool := true) : M Unit := fun st =>
  if download_if_cached || !st.files.contains path then
    (Except.ok (),
     { st with
       trace := st.trace ++ [Act.download url path],
       files := addFile st.files path })
  else (Except.ok (), st)

/-- Read the current state. -/
def getSt : M St := fun st => (Except.ok st, st)

/-- `json.dump(data, f)` over the patched graph document. -/
def writeGraphM (p : Str) (d : GraphDoc) : M Unit := fun st =>
  (Except.ok (),
   { st with trace := st.trace ++ [Act.writeGraph p d], files := addFile st.files p })

/-- The in-process `OboGraphToFHIRConverter().dump(...)` call of
`obograph_to_fhir`, which writes the `CodeSystem` JSON at `out_path`. -/
def convertInProcessM (inpath out_path : Str) : M Unit := fun st =>
  (Except.ok (),
   { st with
     trace := st.trace ++ [Act.convertInProcess inpath out_path],
     files := addFile st.files out_path })

/-! ## Static configuration (lines 20–29)

`BIN_DIR` is the directory holding the script, discovered at runtime; it is
abstracted as a configuration value, and every derived path is computed from
it exactly as in the source. -/

structure Config where
  binDir : Str

def PROJECT_DIR (cfg : Config) : Str := pathJoin cfg.binDir (str "..")
def CACHE_DIR (cfg : Config) : Str := pathJoin (PROJECT_DIR cfg) (str "cache")
def OUTDIR (cfg : Config) : Str := pathJoin (PROJECT_DIR cfg) (str "output")
def ROBOT_PATH (cfg : Config) : Str := pathJoin cfg.binDir (str "robot")
def OWL_ON_FHIR_CONTENT_REPO_PATH (cfg : Config) : Str :=
  pathJoin (pathJoin (PROJECT_DIR cfg) (str "..")) (str "owl-on-fhir-content")

/-! ## `_preprocess_rxnorm` (lines 101–115) -/

/-- `_preprocess_rxnorm`: a no-op on already-normalized paths (those carrying
the `-fixed` marker), otherwise copy to a derived path and run the external
perl rewrite against the copy. -/
def preprocess_rxnorm (cfg : Config) (env : Env) (path : Str) : M Str := do
  if strContains (str "-fixed") path then
    pure path
  else do
    let outpath := strReplace (str ".ttl") (str "-fixed.ttl") path
    run_shell_command env (str "cp " ++ path ++ str " " ++ outpath)
    run_shell_command env
      (str "perl -i " ++ pathJoin cfg.binDir (str "convert_owl_ncbo2owl.pl")
        ++ str " " ++ outpath)
    pure outpath

/-! ## `owl_to_semsql` (lines 131–155) -/

/-- `output_filename` of `owl_to_semsql` (line 142). -/
def semsqlOutputFilename (inpath : Str) : Str :=
  strReplace (str ".ttl") (str ".db")
    (strReplace (str ".rdf") (str ".db")
      (strReplace (str ".owl") (str ".db") (basename inpath)))

/-- The deterministic semsql output path: next to the input file. -/
def semsqlOutpath (inpath : Str) : Str :=
  pathJoin (dirname inpath) (semsqlOutputFilename inpath)

/-- The docker command of `owl_to_semsql` (line 144). -/
def semsqlCommand (inpath : Str) : Str :=
  str "docker run -w /work -v " ++ dirname inpath
    ++ str ":/work --rm obolibrary/odkfull:dev semsql make " ++ semsqlOutputFilename inpath

/-- `owl_to_semsql`: cached result short-circuits; a `FileExistsError` from
the engine is recovered by accepting the existing output (caching on) or by
deleting it and retrying once (caching off). -/
def owl_to_semsql (env : Env) (inpath : Str) (use_cache : Bool := false) : M Str := do
  let _dir := dirname inpath
  let outpath := semsqlOutpath inpath
  let ex ← pathExists outpath
  if use_cache && ex then
    pure outpath
  else do
    tryCatchM (run_shell_command env (semsqlCommand inpath) (some _dir))
      (fun e =>
        match e with
        | Err.fileExistsError _ =>
          if !use_cache then do
            osRemove outpath
            run_shell_command env (semsqlCommand inpath) (some _dir)
          else pure ()
        | _ => throwM e)
    pure outpath

/-! ## `owl_to_obograph` (lines 158–199) -/

/-- `outpath` of `owl_to_obograph` (line 162).  `os.path.join` discards
`CACHE_DIR` whenever `inpath` is absolute, so for absolute inputs the
obographs file lands next to the kept path `inpath`. -/
def obographOutpath (cfg : Config) (inpath : Str) : Str :=
  pathJoin (CACHE_DIR cfg) (inpath ++ str ".obographs.json")

/-- The `robot` command of `owl_to_obograph` (line 164). -/
def robotCommand (cfg : Config) (inpath outpath : Str) : Str :=
  str "java -jar " ++ ROBOT_PATH cfg ++ str ".jar convert -i " ++ inpath
    ++ str " -o " ++ outpath ++ str " --format json"

/-- `owl_to_obograph`: cached result short-circuits; otherwise run `robot`
and, when native URI stems were supplied, patch missing native node
declarations in place. -/
def owl_to_obograph (cfg : Config) (env : Env) (inpath : Str)
    (native_uri_stems : List Str := []) (use_cache : Bool := false) : M Str := do
  let outpath := obographOutpath cfg inpath
  let ex ← pathExists outpath
  if use_cache && ex then
    pure outpath
  else do
    run_shell_command env (robotCommand cfg inpath outpath)
    if native_uri_stems ≠ [] then do
      let data := env.graphAt outpath
      if missingNativeIds native_uri_stems data ≠ [] then
        writeGraphM outpath (patchObograph native_uri_stems data)
    pure outpath

/-! ## `obograph_to_fhir` (lines 206–239) -/

/-- The base of the local-dev OAK command (line 221). -/
def obographFhirBase (doi cli inpath out_path : Str) : Str :=
  doi ++ str " " ++ cli ++ str " -i " ++ inpath ++ str " dump -o " ++ out_path
    ++ str " -O fhirjson"

/-- The `command_str` expression of lines 220–225, with Python's conditional
precedence: `A + B if p1 else '' + C if p2 else '' + D if p3 else '' + E if
p4 else ''` parses as `(A+B) if p1 else ((''+C) if p2 else ((''+D) if p3 else
((''+E) if p4 else '')))`. -/
def devOakCommand (doi cli inpath out_path : Str) (include_all_predicates : Bool)
    (code_system_id code_system_url native_uri_stems_str : Option Str) : Str :=
  if include_all_predicates then
    obographFhirBase doi cli inpath out_path ++ str " --include-all-predicates"
  else if truthy code_system_id then
    str " --code-system-id " ++ code_system_id.getD []
  else if truthy code_system_url then
    str " --code-system-url " ++ code_system_url.getD []
  else if truthy native_uri_stems_str then
    str " --native-uri-stems " ++ native_uri_stems_str.getD []
  else str ""

/-- `obograph_to_fhir`: selects the local-dev OAK subprocess when both dev
paths exist, warns (without converting) when dev paths were requested but are
missing, and otherwise converts in process. -/
def obograph_to_fhir (env : Env) (inpath : Str) (out_dir : Str)
    (out_filename : Str) (code_system_id : Option Str := none)
    (code_system_url : Option Str := none) (include_all_predicates : Bool := false)
    (native_uri_stems : List Str := []) (dev_oak_path : Option Str := none)
    (dev_oak_interpreter_path : Option Str := none) : M Str := do
  let out_path := pathJoin out_dir out_filename
  let st ← getSt
  let local_dev_exists : Bool :=
    (if truthy dev_oak_path then st.files.contains (dev_oak_path.getD []) else false)
    && (if truthy dev_oak_interpreter_path then
          st.files.contains (dev_oak_interpreter_path.getD []) else false)
  let native_uri_stems_str : Option Str :=
    if native_uri_stems ≠ [] then
      some (str "\x22" ++ strJoin (str ",") native_uri_stems ++ str "\x22")
    else none
  if truthy dev_oak_path && local_dev_exists then do
    let dev_oak_cli_path :=
      pathJoin (pathJoin (pathJoin (dev_oak_path.getD []) (str "src")) (str "oaklib"))
        (str "cli.py")
    run_shell_command env
      (devOakCommand (dev_oak_interpreter_path.getD []) dev_oak_cli_path inpath out_path
        include_all_predicates code_system_id code_system_url native_uri_stems_str)
    pure out_path
  else if truthy dev_oak_path && !local_dev_exists then
    -- prints a warning and falls through without converting
    pure out_path
  else do
    convertInProcessM inpath out_path
    pure out_path

/-! ## `semsql_to_fhir` (lines 243–254) -/

/-- The `runoak` command of `semsql_to_fhir` (line 252). -/
def runoakCommand (inpath out_path : Str) (include_all_predicates : Bool) : Str :=
  str "runoak -i sqlite:" ++ inpath ++ str " dump -o " ++ out_path ++ str " -O fhirjson"
    ++ (if include_all_predicates then str " --include-all-predicates" else str "")

/-- `semsql_to_fhir`: shell out to the terminology toolkit. -/
def semsql_to_fhir (env : Env) (inpath : Str) (out_dir : Str) (out_filename : Str)
    (include_all_predicates : Bool := false) : M Str := do
  let out_path := pathJoin out_dir out_filename
  run_shell_command env (runoakCommand inpath out_path include_all_predicates)
  pure out_path

/-! ## `owl_to_fhir` (lines 257–316) -/

/-- The dispatch condition of line 289: the obographs route is taken when the
requested intermediary type is `obographs` or the input path ends in `.ttl`
(`# semsql only supports .owl`); otherwise the semsql route is taken. -/
def usesObographs (intermediary_type input_path : Str) : Bool :=
  intermediary_type == str "obographs" || strEndsWith (str ".ttl") input_path

/-- `owl_to_fhir`: resolve the source, derive filename and code-system id,
normalize rxnorm sources, convert to the intermediary, project to FHIR, and
clean up. -/
def owl_to_fhir (cfg : Config) (env : Env)
    (input_path_or_url : Option Str)
    (out_dir : Str := OUTDIR cfg) (out_filename : Option Str := none)
    (include_all_predicates : Bool := false) (retain_intermediaries : Bool := false)
    (intermediary_type : Str := str "obographs") (use_cached_intermediaries : Bool := false)
    (intermediary_outdir : Option Str := none) (convert_intermediaries_only : Bool := false)
    (native_uri_stems : List Str := []) (code_system_id : Option Str := none)
    (code_system_url : Option Str := none) (dev_oak_path : Option Str := none)
    (dev_oak_interpreter_path : Option Str := none) : M Str := do
  let intermediary_outdir :=
    if truthy intermediary_outdir then intermediary_outdir.getD [] else out_dir
  -- urlparse(None) yields empty scheme and netloc without raising
  let url : Option Str :=
    match input_path_or_url with
    | none => none
    | some s => if hasSchemeAndNetloc s then some s else none
  let mut input_path : Option Str := input_path_or_url
  if truthy url then
    match out_filename with
    | none => throwM Err.attributeError  -- out_filename.replace on None
    | some f => do
      let ip := pathJoin (CACHE_DIR cfg) (strReplace (str ".json") (str ".owl") f)
      input_path := some ip
      download (url.getD []) ip
  let mut out_fn : Option Str := out_filename
  let mut cs_id : Option Str := code_system_id
  if !truthy out_fn then do
    if !truthy cs_id then
      match input_path with
      | none => throwM Err.typeError  -- os.path.basename(None)
      | some ip => cs_id := some (strJoin (str ".") ((strSplit '.' (basename ip)).dropLast))
    out_fn := some (str "CodeSystem-" ++ cs_id.getD [] ++ str ".json")
  if !truthy cs_id && truthy out_fn
      && strStartsWith (str "CodeSystem-") (out_fn.getD []) then
    match (strSplit '-' (out_fn.getD [])).get? 1 with
    | none => throwM Err.indexError
    | some part =>
      match strSplit '.' part with
      | [] => throwM Err.indexError
      | h :: _ => cs_id := some h
  -- Preprocessing: special cases (line 285 reads input_path.lower())
  let ip0 ← match input_path with
    | none => throwM Err.attributeError
    | some p => pure p
  let ofn := out_fn.getD []
  let ip ←
    if strContains (str "rxnorm") (strLower ip0)
        || strContains (str "rxnorm") (strLower ofn) then
      preprocess_rxnorm cfg env ip0
    else pure ip0
  -- Convert
  let intermediary_path ←
    if usesObographs intermediary_type ip then do
      let p ← owl_to_obograph cfg env ip native_uri_stems use_cached_intermediaries
      let _ ← obograph_to_fhir env p intermediary_outdir ofn cs_id code_system_url
        include_all_predicates native_uri_stems dev_oak_path dev_oak_interpreter_path
      pure p
    else do
      let p ← owl_to_semsql env ip use_cached_intermediaries
      let _ ← semsql_to_fhir env p intermediary_outdir ofn include_all_predicates
      pure p
  if convert_intermediaries_only then
    pure intermediary_path
  else do
    -- Cleanup
    let indir := dirname ip
    let template_db_path := pathJoin indir (str ".template.db")
    let ex ← pathExists template_db_path
    if ex then osRemove template_db_path
    if !retain_intermediaries then do
      osRemove intermediary_path
      if intermediary_type == str "semsql" then
        osRemove (pathJoin indir
          (strReplace (str ".db") (str "-relation-graph.tsv.gz")
            (basename intermediary_path)))
    pure (pathJoin out_dir ofn)

/-- Run a computation from an initial state. -/
def runM {α : Type} (x : M α) (st : St) : Except Err α × St := x st

/-! ## Favorites configuration (lines 31–78) and `_run_favorites` (319–344) -/

/-- A value of a favorites configuration dict: a string or a list of URI
stems. -/
inductive FavVal where
  | s (v : Str)
  | ls (v : List Str)
  deriving DecidableEq

/-- One favorites entry, as a key–value dict.  (The concrete entries carry
the keys `download_url`, `code_system_url`, `input_path`, `code_system_id`
and `native_uri_stems` — and notably no `id` key.) -/
abbrev Fav := List (Str × FavVal)

/-- `d[k]` on a favorites dict, expected to hold a string: raises `KeyError`
on a missing key. -/
def dictGetStr (d : Fav) (k : Str) : M Str := fun st =>
  match List.lookup k d with
  | some (FavVal.s v) => (Except.ok v, st)
  | some (FavVal.ls _) => (Except.error Err.typeError, st)
  | none => (Except.error (Err.keyError k), st)

/-- `FAVORITE_ONTOLOGIES` (lines 40–78). -/
def FAVORITE_ONTOLOGIES (cfg : Config) : List Fav :=
  let content := OWL_ON_FHIR_CONTENT_REPO_PATH cfg
  [ [ (str "download_url", FavVal.s (str
        "https://github.com/monarch-initiative/mondo/releases/latest/download/mondo.owl")),
      (str "code_system_url", FavVal.s (str "http://purl.obolibrary.org/obo/mondo.owl")),
      (str "input_path", FavVal.s
        (pathJoin (pathJoin content (str "input")) (str "mondo.owl"))),
      (str "code_system_id", FavVal.s (str "mondo")),
      (str "native_uri_stems", FavVal.ls [str "http://purl.obolibrary.org/obo/MONDO_"]) ],
    [ (str "download_url", FavVal.s (str
        "https://github.com/loinc/comp-loinc/releases/latest/download/merged_reasoned_loinc.owl")),
      (str "code_system_url", FavVal.s (str
        "https://github.com/loinc/comp-loinc/releases/latest/download/merged_reasoned_loinc.owl")),
      (str "input_path", FavVal.s
        (pathJoin (pathJoin content (str "input")) (str "comploinc.owl"))),
      (str "code_system_id", FavVal.s (str "comp-loinc")),
      (str "native_uri_stems", FavVal.ls [str "https://loinc.org/"]) ],
    [ (str "download_url", FavVal.s (str
        "https://github.com/obophenotype/human-phenotype-ontology/releases/latest/download/hp-full.owl")),
      (str "code_system_url", FavVal.s (str "http://purl.obolibrary.org/obo/hp.owl")),
      (str "input_path", FavVal.s
        (pathJoin (pathJoin content (str "input")) (str "hpo.owl"))),
      (str "code_system_id", FavVal.s (str "HPO")),
      (str "native_uri_stems", FavVal.ls [str "http://purl.obolibrary.org/obo/HP_"]) ],
    [ (str "download_url", FavVal.s (str
        "https://data.bioontology.org/ontologies/RXNORM/submissions/23/download?apikey=8b5b7825-538d-40e0-9e9e-5ab9274a9aeb")),
      (str "code_system_url", FavVal.s (str "http://purl.bioontology.org/ontology/RXNORM")),
      (str "input_path", FavVal.s
        (pathJoin (pathJoin content (str "input")) (str "RXNORM.ttl"))),
      (str "code_system_id", FavVal.s (str "rxnorm")),
      (str "native_uri_stems", FavVal.ls [str "http://purl.bioontology.org/ontology/RXNORM/"]) ],
    [ (str "download_url", FavVal.s (str
        "https://data.bioontology.org/ontologies/SO/submissions/304/download?apikey=8b5b7825-538d-40e0-9e9e-5ab9274a9aeb")),
      (str "code_system_url", FavVal.s (str "http://purl.bioontology.org/ontology/SO")),
      (str "input_path", FavVal.s
        (pathJoin (pathJoin content (str "input")) (str "so.owl"))),
      (str "code_system_id", FavVal.s (str "sequence-ontology")),
      (str "native_uri_stems", FavVal.ls [str "http://purl.obolibrary.org/obo/SO_"]) ] ]

/-- The optional parameters of `_run_favorites`.  A `none` field was `None`
in Python and is dropped from `kwargs` (line 326), so `owl_to_fhir`'s own
default applies; a `some` field is forwarded. -/
structure FavOpts where
  use_cached_intermediaries : Option Bool := none
  retain_intermediaries : Option Bool := none
  include_all_predicates : Option Bool := none
  intermediary_type : Option Str := none
  out_dir : Option Str := none
  intermediary_outdir : Option Str := none
  convert_intermediaries_only : Option Bool := none
  dev_oak_path : Option Str := none
  dev_oak_interpreter_path : Option Str := none

/-- `FAVORITE_DEFAULTS` (lines 31–39), as `_run_favorites` options. -/
def FAVORITE_DEFAULTS (cfg : Config) : FavOpts :=
  { out_dir := some (pathJoin (OWL_ON_FHIR_CONTENT_REPO_PATH cfg) (str "output")),
    intermediary_outdir := some (pathJoin (OWL_ON_FHIR_CONTENT_REPO_PATH cfg) (str "input")),
    include_all_predicates := some true,
    intermediary_type := some (str "obographs"),
    use_cached_intermediaries := some true,
    retain_intermediaries := some true,
    convert_intermediaries_only := some false }

/-- The `owl_to_fhir` call of `_run_favorites` (lines 335–337): explicit
out-filename and source, plus the non-`None` options; every parameter not in
`kwargs` gets `owl_to_fhir`'s own default. -/
def favOwlToFhirCall (cfg : Config) (env : Env) (o : FavOpts) (src ofn : Str) : M Str :=
  owl_to_fhir cfg env (some src)
    (o.out_dir.getD (OUTDIR cfg)) (some ofn)
    (o.include_all_predicates.getD false) (o.retain_intermediaries.getD false)
    (o.intermediary_type.getD (str "obographs")) (o.use_cached_intermediaries.getD false)
    o.intermediary_outdir (o.convert_intermediaries_only.getD false)
    [] none none o.dev_oak_path o.dev_oak_interpreter_path

/-- The loop body of `_run_favorites` (lines 331–341), with the success and
failure accumulators threaded explicitly.  The progress print reads
`d['code_system_id']` outside the `try`; inside the `try`, the pipeline runs
and then `successes.append(d['id'])` looks up the `id` key; any exception is
caught and `d['code_system_id']` is appended to the failures instead. -/
def runFavJobs (cfg : Config) (env : Env) (o : FavOpts) :
    List Fav → List Str → List Str → M (List Str × List Str)
  | [], successes, fails => pure (successes, fails)
  | d :: rest, successes, fails => do
    let cs ← dictGetStr d (str "code_system_id")
    let r ← tryCatchM
      (do
        let ipv ← dictGetStr d (str "input_path")
        let src ← if ipv ≠ [] then pure ipv else dictGetStr d (str "download_url")
        let _ ← favOwlToFhirCall cfg env o src (str "CodeSystem-" ++ cs ++ str ".json")
        let idv ← dictGetStr d (str "id")
        pure (Sum.inl idv))
      (fun _e => do
        let c ← dictGetStr d (str "code_system_id")
        pure (Sum.inr c))
    match r with
    | Sum.inl v => runFavJobs cfg env o rest (successes ++ [v]) fails
    | Sum.inr c => runFavJobs cfg env o rest successes (fails ++ [c])

/-- `_run_favorites`: run every favorite job, isolating per-job failures, and
return the printed summary (successes, failures). -/
def run_favorites (cfg : Config) (env : Env) (o : FavOpts) (favorites : List Fav) :
    M (List Str × List Str) :=
  runFavJobs cfg env o favorites [] []

/-! ## `cli` (lines 347–408) -/

/-- The parsed CLI arguments with their argparse defaults.  `out_dir = none`
stands for the argparse default `OUTDIR`; string flags defaulting to `False`
or `None` are `none`. -/
structure CliArgs where
  input_path_or_url : Option Str := none
  out_dir : Option Str := none
  out_filename : Option Str := none
  code_system_id : Option Str := none
  code_system_url : Option Str := none
  include_all_predicates : Bool := false
  native_uri_stems : List Str := []
  intermediary_type : Str := str "obographs"
  use_cached_intermediaries : Bool := false
  retain_intermediaries : Bool := false
  convert_intermediaries_only : Bool := false
  dev_oak_path : Option Str := none
  dev_oak_interpreter_path : Option Str := none
  favorites : Bool := false

/-- `cli` (lines 402–408): when `--favorites` is set, run the batch with
`FAVORITE_DEFAULTS` (plus the two dev-oak flags taken from the CLI); then —
with no early return in the source — `owl_to_fhir(**d)` runs on the remaining
arguments regardless. -/
def cli (cfg : Config) (env : Env) (d : CliArgs) : M Str := do
  if d.favorites then
    let _ ← run_favorites cfg env
      { FAVORITE_DEFAULTS cfg with
        dev_oak_path := d.dev_oak_path,
        dev_oak_interpreter_path := d.dev_oak_interpreter_path }
      (FAVORITE_ONTOLOGIES cfg)
  owl_to_fhir cfg env d.input_path_or_url (d.out_dir.getD (OUTDIR cfg)) d.out_filename
    d.include_all_predicates d.retain_intermediaries d.intermediary_type
    d.use_cached_intermediaries none d.convert_intermediaries_only d.native_uri_stems
    d.code_system_id d.code_system_url d.dev_oak_path d.dev_oak_interpreter_path

/-! ## Shared concrete fixtures for witnesses and scenario runs -/

/-- A concrete configuration: the script lives in `/b`. -/
def conf1 : Config := ⟨str "/b"⟩

/-- An empty initial world: no files, no calls, no trace. -/
def st1 : St := ⟨[], 0, [], fun _ => 0⟩

/-- An environment whose subprocesses all succeed silently and create
nothing, and whose graph documents are empty. -/
def envOk : Env :=
  { subproc := fun _ _ _ => ⟨[], [], []⟩, graphAt := fun _ => ⟨[], []⟩ }

/-- An environment whose subprocesses all report make's no-op message on
stdout. -/
def envNoop : Env :=
  { subproc := fun _ _ _ => ⟨[], str "make: Nothing to be done for 'x.db'.", []⟩,
    graphAt := fun _ => ⟨[], []⟩ }

/-- A stdout reporting the output database up to date while also containing
make's no-op message. -/
def c3stdout : Str := str "make: Nothing to be done. 'x.db' is up to date"

/-- An environment whose subprocess reports the output database up to date
and leaves the database file on disk. -/
def envUpToDate : Env :=
  { subproc := fun _ _ _ => ⟨[], str "x.db' is up to date", [str "/i/x.db"]⟩,
    graphAt := fun _ => ⟨[], []⟩ }

/-- The C5 witness document: one declared node, one native id and one foreign
id referenced by edges but undeclared. -/
def c5doc : GraphDoc :=
  { nodes := [⟨str "http://example.org/X_0"⟩],
    edges := [⟨str "http://example.org/X_1", str "is_a", str "http://example.org/X_0"⟩,
              ⟨str "http://example.org/X_1", str "part_of", str "http://other.org/Y_9"⟩] }

/-- The C5 witness stems. -/
def c5stems : List Str := [str "http://example.org/X_"]

/-- A world that already holds both deterministic intermediary outputs for
the source `/i/x.owl`. -/
def stCached : St :=
  ⟨[str "/i/x.owl.obographs.json", str "/i/x.db"], 0, [], fun _ => 0⟩

/-- A batch job for the C1 scenario: the same key set as the entries of
`FAVORITE_ONTOLOGIES` (in particular, no `id` key). -/
def favJob (idv inpath : String) : Fav :=
  [ (str "download_url", FavVal.s (str "http://e.x/o.owl")),
    (str "code_system_url", FavVal.s (str "http://e.x/o.owl")),
    (str "input_path", FavVal.s (str inpath)),
    (str "code_system_id", FavVal.s (str idv)),
    (str "native_uri_stems", FavVal.ls [str "http://e.x/"]) ]

/-- Three batch jobs; job 2's source `/i/b.owl` is the one that will fail. -/
def favs3 : List Fav :=
  [favJob "j1" "/i/a.owl", favJob "j2" "/i/b.owl", favJob "j3" "/i/c.owl"]

/-- The C1 environment: the second subprocess of the batch (job 2's `robot`
conversion of the missing source) fails on stderr; every other call
succeeds. -/
def env3 : Env :=
  { subproc := fun n _ _ =>
      if n == 1 then ⟨str "ERROR: /i/b.owl does not exist", [], []⟩ else ⟨[], [], []⟩,
    graphAt := fun _ => ⟨[], []⟩ }

/-- The C1 batch options: the favorite defaults with concrete directories. -/
def favOpts3 : FavOpts :=
  { use_cached_intermediaries := some true, retain_intermediaries := some true,
    include_all_predicates := some true, intermediary_type := some (str "obographs"),
    out_dir := some (str "/o"), intermediary_outdir := some (str "/n"),
    convert_intermediaries_only := some false }

/-- Is an action a file deletion? -/
def isRemove : Act → Bool
  | Act.removeFile _ => true
  | _ => false

/-- The C6 environment: the docker (semsql) engine creates the database, the
runoak projection creates the CodeSystem file. -/
def envC6 : Env :=
  { subproc := fun n _ _ =>
      if n == 0 then ⟨[], [], [str "/i/x.db"]⟩
      else ⟨[], [], [str "/o/CodeSystem-x.json"]⟩,
    graphAt := fun _ => ⟨[], []⟩ }

/-- The C6 scenario: a semsql job run in convert-intermediaries-only mode. -/
def c6run : Except Err Str × St :=
  runM (owl_to_fhir conf1 envC6 (some (str "/i/x.owl")) (str "/o") none false false
    (str "semsql") false none true [] none none none none) st1

/-- The C7 URL scenario: a URL source with no explicit output filename. -/
def c7urlRun : Except Err Str × St :=
  runM (owl_to_fhir conf1 envOk (some (str "http://host/ontology.owl")) (str "/o")) st1

/-- The C7 local environment: `robot` creates the obographs intermediary, so
the cleanup deletion succeeds. -/
def envMondo : Env :=
  { subproc := fun _ _ _ => ⟨[], [], [str "/local/mondo.owl.obographs.json"]⟩,
    graphAt := fun _ => ⟨[], []⟩ }

/-- The C7 local scenario: `/local/mondo.owl`, no explicit filename, no
code-system id. -/
def c7localRun : Except Err Str × St :=
  runM (owl_to_fhir conf1 envMondo (some (str "/local/mondo.owl")) (str "/o")) st1

/-- The C8 scenario: the CLI invoked with only the batch-mode toggle set. -/
def c8run : Except Err Str × St :=
  runM (cli conf1 envOk { favorites := true }) st1

/-- The C9 environment: docker creates the database, runoak creates the
CodeSystem file (on every projection run). -/
def envC9 : Env :=
  { subproc := fun n _ _ =>
      if n == 0 then ⟨[], [], [str "/i/x.db"]⟩
      else ⟨[], [], [str "/o/CodeSystem-x.json"]⟩,
    graphAt := fun _ => ⟨[], []⟩ }

/-- First run of the C9 job: semsql intermediary, retain and cache both
requested. -/
def c9run1 : Except Err Str × St :=
  runM (owl_to_fhir conf1 envC9 (some (str "/i/x.owl")) (str "/o") none false true
    (str "semsql") true none false [] none none none none) st1

/-- Second, identical run of the C9 job, from the world the first run left. -/
def c9run2 : Except Err Str × St :=
  runM (owl_to_fhir conf1 envC9 (some (str "/i/x.owl")) (str "/o") none false true
    (str "semsql") true none false [] none none none none) c9run1.2

/-- The C2 scenario run: a `.ttl` input with a requested `semsql`
intermediary, retaining intermediaries. -/
def c2run : Except Err Str × St :=
  runM (owl_to_fhir conf1 envOk (some (str "/i/x.ttl")) (str "/o") none false true
    (str "semsql") false none false [] none none none none) st1

/-! ## Helper lemmas about the effect monad -/

theorem bindM_apply {α β : Type} (x : M α) (f : α → M β) (st : St) :
    (x >>= f) st
      = match x st with
        | (Except.ok a, st') => f a st'
        | (Except.error e, st') => (Except.error e, st') := rfl

theorem pureM_apply {α : Type} (a : α) (st : St) :
    (pure a : M α) st = (Except.ok a, st) := rfl

theorem run_shell_ok (env : Env) (c : Str) (w : Option Str) (st : St)
    (r : SubprocResult) (h : env.subproc st.nCalls c w = r)
    (h2 : classifyRun r.stderr r.stdout = RunClass.ok) :
    run_shell_command env c w st = (Except.ok (), stAfterRun st c w r.creates) := by
  subst h
  simp only [run_shell_command]
  rw [h2]

theorem run_shell_runtimeErr (env : Env) (c : Str) (w : Option Str) (st : St)
    (r : SubprocResult) (m : Str) (h : env.subproc st.nCalls c w = r)
    (h2 : classifyRun r.stderr r.stdout = RunClass.runtimeErr m) :
    run_shell_command env c w st
      = (Except.error (Err.runtimeError m), stAfterRun st c w r.creates) := by
  subst h
  simp only [run_shell_command]
  rw [h2]

theorem run_shell_fileExists (env : Env) (c : Str) (w : Option Str) (st : St)
    (r : SubprocResult) (m : Str) (h : env.subproc st.nCalls c w = r)
    (h2 : classifyRun r.stderr r.stdout = RunClass.fileExistsErr m) :
    run_shell_command env c w st
      = (Except.error (Err.fileExistsError m), stAfterRun st c w r.creates) := by
  subst h
  simp only [run_shell_command]
  rw [h2]

theorem strContains_ne_nil {pat so : Str} (hp : pat ≠ []) (h : strContains pat so = true) :
    so.isEmpty = false := by
  cases so with
  | nil =>
    cases pat with
    | nil => exact absurd rfl hp
    | cons c cs => simp [strContains, strStartsWith] at h
  | cons c cs => rfl

/-! ## Claims -/

/-- Claim C2, counterexample: the claim says a relational-snapshot (semsql)
conversion happens only when the input is an OWL file, and that any other
extension forces obographs.  But for a requested `semsql` intermediary on
`/a/data.txt` — not an OWL file and not a `.ttl` file — the dispatch
condition of line 289 is false, so the `else` (semsql) branch runs. -/
theorem c2_counterexample :
    usesObographs (str "semsql") (str "/a/data.txt") = false
    ∧ strEndsWith (str ".owl") (str "/a/data.txt") = false
    ∧ strEndsWith (str ".ttl") (str "/a/data.txt") = false := by decide

/-- Claim C2, amended: the semsql route is taken exactly when the requested
kind is not `obographs` and the input does not end in `.ttl`; only a `.ttl`
extension (not every non-OWL extension) forces graph-document conversion over
a `semsql` request.  Concretely, a `semsql` job on `/i/x.ttl` runs the
`robot` (obographs) engine and the in-process projection, and no docker
(semsql) command. -/
theorem c2_ttl_forces_obographs :
    (∀ it ip, usesObographs it ip = false
        ↔ it ≠ str "obographs" ∧ strEndsWith (str ".ttl") ip = false)
    ∧ c2run.1 = Except.ok (str "/o/CodeSystem-x.json")
    ∧ c2run.2.trace
        = [Act.runShell
             (robotCommand conf1 (str "/i/x.ttl") (str "/i/x.ttl.obographs.json")) none,
           Act.convertInProcess (str "/i/x.ttl.obographs.json")
             (str "/o/CodeSystem-x.json")] := by
  refine ⟨?_, rfl, rfl⟩
  intro it ip
  simp [usesObographs, Bool.or_eq_false_iff, beq_eq_false_iff_ne]

/-- Claim C10: a subprocess whose stderr is empty (or only the benign
terminal warning) and whose stdout contains `make: Nothing to be done` but no
error marker is classified as a hard failure (`RuntimeError`), not as the
recoverable already-exists condition; concretely, `owl_to_semsql` with
caching requested aborts with that `RuntimeError` when the engine reports the
no-op. -/
theorem c10_make_noop_is_hard_failure :
    (∀ se so : Str,
        (se = [] ∨ strContains benignWarning se = true) →
        strContains (str "error") so = false →
        strContains (str "ERROR") so = false →
        strContains (str "make: Nothing to be done") so = true →
        classifyRun se so = RunClass.runtimeErr so)
    ∧ runM (owl_to_semsql envNoop (str "/i/x.owl") true) st1
        = (Except.error
             (Err.runtimeError (str "make: Nothing to be done for 'x.db'.")),
           ⟨[], 1, [Act.runShell (semsqlCommand (str "/i/x.owl")) (some (str "/i"))],
            fun _ => 0⟩) := by
  refine ⟨?_, rfl⟩
  intro se so h1 h2 h3 h4
  have hse : (!se.isEmpty && !strContains benignWarning se) = false := by
    rcases h1 with h | h
    · subst h; rfl
    · simp [h]
  have hso : so.isEmpty = false := by
    cases so with
    | nil => simp [strContains, strStartsWith] at h4
    | cons c cs => rfl
  simp [classifyRun, hse, h2, h3, h4, hso]

/-- Witness for C10 at a concrete no-op stdout. -/
theorem c10_witness :
    classifyRun [] (str "make: Nothing to be done for 'x.db'.")
      = RunClass.runtimeErr (str "make: Nothing to be done for 'x.db'.") :=
  c10_make_noop_is_hard_failure.1 [] (str "make: Nothing to be done for 'x.db'.")
    (Or.inl rfl) (by decide) (by decide) (by decide)

/-- Claim C3, counterexample: the claim says a stdout reporting the output
database is up to date (with no error marker and a benign stderr) is
classified as the already-exists condition.  But a stdout carrying the
up-to-date report together with make's no-op message hits line 94 first and
is classified as a hard failure. -/
theorem c3_counterexample :
    strContains (str ".db' is up to date") c3stdout = true
    ∧ strContains (str "error") c3stdout = false
    ∧ strContains (str "ERROR") c3stdout = false
    ∧ classifyRun [] c3stdout = RunClass.runtimeErr c3stdout
    ∧ classifyRun [] c3stdout ≠ RunClass.fileExistsErr c3stdout := by decide

/-- Claim C3, amended: stderr non-empty without the benign warning is a hard
failure; otherwise an `error`/`ERROR` marker on stdout is a hard failure;
otherwise a stdout reporting the output database is up to date — provided it
does not carry the `make: Nothing to be done` no-op message — is the distinct
already-exists condition; and `owl_to_semsql` recovers from it: with caching
requested the existing output path is returned after the single engine call,
and without caching the existing output is deleted and the engine is retried
exactly once. -/
theorem c3_classification_and_recovery :
    (∀ se so : Str, se ≠ [] → strContains benignWarning se = false →
        classifyRun se so = RunClass.runtimeErr se)
    ∧ (∀ se so : Str, (se = [] ∨ strContains benignWarning se = true) →
        (strContains (str "error") so = true ∨ strContains (str "ERROR") so = true) →
        classifyRun se so = RunClass.runtimeErr so)
    ∧ (∀ se so : Str, (se = [] ∨ strContains benignWarning se = true) →
        strContains (str "error") so = false → strContains (str "ERROR") so = false →
        strContains (str "make: Nothing to be done") so = false →
        strContains (str ".db' is up to date") so = true →
        classifyRun se so = RunClass.fileExistsErr so)
    ∧ (∀ (env : Env) (st : St) (inpath : Str) (r : SubprocResult) (m : Str),
        st.files.contains (semsqlOutpath inpath) = false →
        env.subproc st.nCalls (semsqlCommand inpath) (some (dirname inpath)) = r →
        classifyRun r.stderr r.stdout = RunClass.fileExistsErr m →
        runM (owl_to_semsql env inpath true) st
          = (Except.ok (semsqlOutpath inpath),
             stAfterRun st (semsqlCommand inpath) (some (dirname inpath)) r.creates))
    ∧ (∀ (env : Env) (st : St) (inpath : Str) (r1 r2 : SubprocResult) (m : Str),
        env.subproc st.nCalls (semsqlCommand inpath) (some (dirname inpath)) = r1 →
        classifyRun r1.stderr r1.stdout = RunClass.fileExistsErr m →
        (stAfterRun st (semsqlCommand inpath) (some (dirname inpath))
            r1.creates).files.contains (semsqlOutpath inpath) = true →
        env.subproc (st.nCalls + 1) (semsqlCommand inpath) (some (dirname inpath)) = r2 →
        classifyRun r2.stderr r2.stdout = RunClass.ok →
        runM (owl_to_semsql env inpath false) st
          = (Except.ok (semsqlOutpath inpath),
             stAfterRun
               (removeSt
                 (stAfterRun st (semsqlCommand inpath) (some (dirname inpath)) r1.creates)
                 (semsqlOutpath inpath))
               (semsqlCommand inpath) (some (dirname inpath)) r2.creates)) := by
  refine ⟨?_, ?_, ?_, ?_, ?_⟩
  · intro se so h1 h2
    have hse : se.isEmpty = false := by
      cases se with
      | nil => exact absurd rfl h1
      | cons a l => rfl
    simp [classifyRun, hse, h2]
  · intro se so h1 h2
    have hse : (!se.isEmpty && !strContains benignWarning se) = false := by
      rcases h1 with h | h
      · subst h; rfl
      · simp [h]
    have hcond : ((!so.isEmpty && strContains (str "error") so)
        || strContains (str "ERROR") so) = true := by
      rcases h2 with h | h
      · have := strContains_ne_nil (by decide) h
        simp [h, this]
      · simp [h]
    simp [classifyRun, hse, hcond]
  · intro se so h1 h2 h3 h4 h5
    have hse : (!se.isEmpty && !strContains benignWarning se) = false := by
      rcases h1 with h | h
      · subst h; rfl
      · simp [h]
    have hso : so.isEmpty = false := strContains_ne_nil (by decide) h5
    simp [classifyRun, hse, hso, h2, h3, h4, h5]
  · intro env st inpath r m hc h1 h2
    have hc' : semsqlOutpath inpath ∉ st.files := by simpa using hc
    have e1 := run_shell_fileExists env (semsqlCommand inpath)
      (some (dirname inpath)) st r m h1 h2
    simp [runM, owl_to_semsql, bindM_apply, pureM_apply, pathExists, tryCatchM,
      ite_apply, hc', e1]
  · intro env st inpath r1 r2 m h1 h2 h3 h4 h5
    have h3' : semsqlOutpath inpath
        ∈ (stAfterRun st (semsqlCommand inpath) (some (dirname inpath))
            r1.creates).files := by simpa using h3
    have e1 := run_shell_fileExists env (semsqlCommand inpath)
      (some (dirname inpath)) st r1 m h1 h2
    have e2 := run_shell_ok env (semsqlCommand inpath) (some (dirname inpath))
      (removeSt (stAfterRun st (semsqlCommand inpath) (some (dirname inpath)) r1.creates)
        (semsqlOutpath inpath)) r2 h4 h5
    simp [runM, owl_to_semsql, bindM_apply, pureM_apply, pathExists, tryCatchM,
      osRemove, ite_apply, h3', e1, e2]

/-- Witness for C3 at concrete inputs: the up-to-date classification, and the
cache-accepting recovery of `owl_to_semsql`. -/
theorem c3_witness :
    classifyRun [] (str "FOO.db' is up to date")
      = RunClass.fileExistsErr (str "FOO.db' is up to date")
    ∧ runM (owl_to_semsql envUpToDate (str "/i/x.owl") true) st1
        = (Except.ok (str "/i/x.db"),
           stAfterRun st1 (semsqlCommand (str "/i/x.owl")) (some (str "/i"))
             [str "/i/x.db"]) :=
  ⟨c3_classification_and_recovery.2.2.1 [] (str "FOO.db' is up to date")
      (Or.inl rfl) (by decide) (by decide) (by decide) (by decide),
   c3_classification_and_recovery.2.2.2.1 envUpToDate st1 (str "/i/x.owl")
      ⟨[], str "x.db' is up to date", [str "/i/x.db"]⟩ (str "x.db' is up to date")
      (by decide) rfl (by decide)⟩

/-- Claim C5: for a graph-document conversion with a non-empty set of native
URI stems, every id referenced by an edge, absent from the node list, and
matching a native stem is present in the rewritten node list; every absent id
not matching a stem stays absent; edges are untouched. -/
theorem c5_patch_adds_exactly_missing_native_nodes
    (native_uri_stems : List Str) (d : GraphDoc) (_hs : native_uri_stems ≠ []) :
    (∀ x : Str, x ∈ edgeIds d → x ∉ nodeIds d →
        native_uri_stems.any (fun y => strStartsWith y x) = true →
        x ∈ nodeIds (patchObograph native_uri_stems d))
    ∧ (∀ x : Str, x ∉ nodeIds d →
        native_uri_stems.any (fun y => strStartsWith y x) = false →
        x ∉ nodeIds (patchObograph native_uri_stems d))
    ∧ (patchObograph native_uri_stems d).edges = d.edges := by
  refine ⟨?_, ?_, ?_⟩
  · intro x hx hn hm
    have hmiss : x ∈ missingNativeIds native_uri_stems d := by
      simp [missingNativeIds, List.mem_filter, hx, hm, hn]
    have hne : missingNativeIds native_uri_stems d ≠ [] := List.ne_nil_of_mem hmiss
    simp [patchObograph, hne, nodeIds, List.map_append, List.map_map]
    right
    simpa [nodeIds] using hmiss
  · intro x hn hm
    by_cases hne : missingNativeIds native_uri_stems d = []
    · simpa [patchObograph, hne, nodeIds] using hn
    · simp [patchObograph, hne, nodeIds, List.map_append, List.map_map]
      constructor
      · simpa [nodeIds] using hn
      · intro hmem
        have := (List.mem_filter.mp hmem).2
        simp [hm] at this
  · by_cases hne : missingNativeIds native_uri_stems d = [] <;>
      simp [patchObograph, hne]

/-- Witness for C5: the missing native id is added, the foreign one is not. -/
theorem c5_witness :
    str "http://example.org/X_1" ∈ nodeIds (patchObograph c5stems c5doc)
    ∧ str "http://other.org/Y_9" ∉ nodeIds (patchObograph c5stems c5doc) :=
  ⟨(c5_patch_adds_exactly_missing_native_nodes c5stems c5doc (by decide)).1
      (str "http://example.org/X_1") (by decide) (by decide) (by decide),
   (c5_patch_adds_exactly_missing_native_nodes c5stems c5doc (by decide)).2.1
      (str "http://other.org/Y_9") (by decide) (by decide)⟩

/-- Claim C4: with caching requested and a file already present at the
deterministic intermediary output path, both converters return the existing
path unchanged with the state returned verbatim: no subprocess invocation is
recorded, and — the result holding for arbitrary `st.mtime` — no freshness
comparison against the source's modification time takes place. -/
theorem c4_cache_hit_short_circuits
    (cfg : Config) (env : Env) (st : St) (inpath : Str) (stems : List Str)
    (h1 : obographOutpath cfg inpath ∈ st.files)
    (h2 : semsqlOutpath inpath ∈ st.files) :
    runM (owl_to_obograph cfg env inpath stems true) st
      = (Except.ok (obographOutpath cfg inpath), st)
    ∧ runM (owl_to_semsql env inpath true) st
      = (Except.ok (semsqlOutpath inpath), st) := by
  constructor
  · simp [runM, owl_to_obograph, bindM_apply, pureM_apply, pathExists, ite_apply, h1]
  · simp [runM, owl_to_semsql, bindM_apply, pureM_apply, pathExists, ite_apply, h2]

/-- Witness for C4 at the concrete cached world. -/
theorem c4_witness :
    runM (owl_to_obograph conf1 envOk (str "/i/x.owl") [] true) stCached
      = (Except.ok (str "/i/x.owl.obographs.json"), stCached)
    ∧ runM (owl_to_semsql envOk (str "/i/x.owl") true) stCached
      = (Except.ok (str "/i/x.db"), stCached) :=
  c4_cache_hit_short_circuits conf1 envOk stCached (str "/i/x.owl") []
    (by decide) (by decide)

/-- Claim C1 (code-bug evidence): in the three-job batch where job 2's source
conversion fails, the batch does continue past the failure and records job 2
against its identifier — but the final summary lists NO successes and all
three identifiers as failures, even though the trace shows jobs 1 and 3 ran
their full pipelines (conversion plus FHIR projection).  The success path
`successes.append(d['id'])` reads a dict key the favorites entries do not
have, and the resulting `KeyError` is swallowed by the same per-job handler
that records failures. -/
theorem c1_completed_jobs_are_reported_as_failures :
    (runM (run_favorites conf1 env3 favOpts3 favs3) st1).1
      = Except.ok ([], [str "j1", str "j2", str "j3"])
    ∧ (runM (run_favorites conf1 env3 favOpts3 favs3) st1).2.trace
      = [Act.runShell (robotCommand conf1 (str "/i/a.owl")
            (str "/i/a.owl.obographs.json")) none,
         Act.convertInProcess (str "/i/a.owl.obographs.json")
            (str "/n/CodeSystem-j1.json"),
         Act.runShell (robotCommand conf1 (str "/i/b.owl")
            (str "/i/b.owl.obographs.json")) none,
         Act.runShell (robotCommand conf1 (str "/i/c.owl")
            (str "/i/c.owl.obographs.json")) none,
         Act.convertInProcess (str "/i/c.owl.obographs.json")
            (str "/n/CodeSystem-j3.json")] := by
  exact ⟨rfl, rfl⟩

/-- Claim C6, counterexample: the claim says intermediaries-only mode skips
the FHIR projection entirely and produces no CodeSystem output.  But the run
executes the runoak projection subprocess right after the semsql conversion,
and the CodeSystem file exists afterwards; only then does line 301 return the
intermediary path. -/
theorem c6_counterexample :
    c6run.2.trace
      = [Act.runShell (semsqlCommand (str "/i/x.owl")) (some (str "/i")),
         Act.runShell
           (runoakCommand (str "/i/x.db") (str "/o/CodeSystem-x.json") false) none]
    ∧ c6run.2.files.contains (str "/o/CodeSystem-x.json") = true := by
  exact ⟨rfl, rfl⟩

/-- Claim C6, amended: intermediaries-only mode returns the intermediary
path as the job's result and skips all retention/cleanup (nothing is deleted,
and the intermediary still exists) — but the projection stage has already run
by the time the early return of line 301 executes. -/
theorem c6_returns_intermediary_and_skips_cleanup :
    c6run.1 = Except.ok (str "/i/x.db")
    ∧ c6run.2.trace.all (fun a => !isRemove a) = true
    ∧ c6run.2.files.contains (str "/i/x.db") = true := by
  exact ⟨rfl, rfl, rfl⟩

/-- Claim C7, counterexample: for the URL source `http://host/ontology.owl`
with no explicit output filename, no `CodeSystem.json` is derived — the job
dies immediately with an `AttributeError`, because line 275 calls
`out_filename.replace` while `out_filename` is still `None`, before anything
else happens (the returned state is the initial one: no download, no
conversion). -/
theorem c7_counterexample :
    c7urlRun = (Except.error Err.attributeError, st1) := by rfl

/-- Claim C7, amended: a URL source without an explicit output filename
fails with `AttributeError` (URL sources require an explicit filename); for
the local source `/local/mondo.owl` with no code-system id, the id is derived
from the source basename without its extension and the derived output
filename is `CodeSystem-mondo.json`. -/
theorem c7_filename_derivation :
    c7urlRun.1 = Except.error Err.attributeError
    ∧ c7localRun.1 = Except.ok (str "/o/CodeSystem-mondo.json")
    ∧ str "CodeSystem-"
        ++ strJoin (str ".") ((strSplit '.' (basename (str "/local/mondo.owl"))).dropLast)
        ++ str ".json"
      = str "CodeSystem-mondo.json" := by
  exact ⟨rfl, rfl, rfl⟩

/-- Claim C8 (code-bug evidence): with `--favorites` set and no input, the
batch runs (seven subprocess calls: one robot conversion per favorite plus
the cp/perl normalization pair for rxnorm, and five in-process projections) —
and then, because `cli` has no early return, `owl_to_fhir(**d)` still runs on
the remaining CLI arguments and dies with a `TypeError` on the `None` input
(line 279 takes `os.path.basename(None)`).  The claim's "no single-job
conversion is attempted after the batch" is violated. -/
theorem c8_single_job_conversion_attempted_after_batch :
    c8run.1 = Except.error Err.typeError
    ∧ c8run.2.nCalls = 7
    ∧ c8run.2.trace.length = 12 := by
  exact ⟨rfl, rfl, rfl⟩

/-- Claim C9, counterexample: running the job twice with retention and
caching on is claimed to re-invoke no external engine on the second run; but
the second run performs one more subprocess invocation (three in total
against two after the first run) — the runoak FHIR projection. -/
theorem c9_counterexample :
    c9run1.2.nCalls = 2
    ∧ c9run2.2.nCalls = 3
    ∧ c9run2.2.trace
      = c9run1.2.trace
        ++ [Act.runShell
              (runoakCommand (str "/i/x.db") (str "/o/CodeSystem-x.json") false) none] := by
  exact ⟨rfl, rfl, rfl⟩

/-- Claim C9, amended: the second run produces the identical final artifact
path and does not re-invoke the intermediary conversion engine (the only new
action in its trace is the runoak projection call — in particular no docker
semsql invocation); the FHIR projection, however, runs again on every run. -/
theorem c9_idempotent_path_but_projection_reruns :
    c9run1.1 = Except.ok (str "/o/CodeSystem-x.json")
    ∧ c9run2.1 = Except.ok (str "/o/CodeSystem-x.json")
    ∧ c9run1.2.trace
      = [Act.runShell (semsqlCommand (str "/i/x.owl")) (some (str "/i")),
         Act.runShell
           (runoakCommand (str "/i/x.db") (str "/o/CodeSystem-x.json") false) none]
    ∧ c9run2.2.trace
      = c9run1.2.trace
        ++ [Act.runShell
              (runoakCommand (str "/i/x.db") (str "/o/CodeSystem-x.json") false) none] := by
  exact ⟨rfl, rfl, rfl, rfl⟩

end ConvertOwl
